import Mathlib

/-!
Shallow embedding of the cache-aside prediction pipeline of the
`ai-ml-service` (files `app/api/prediction.py`,
`app/services/redis_service.py`, `app/services/ml_service.py`), together
with theorems settling the claims about it.

Modelling conventions:
* Python exceptions become `Except String` results; a service method that
  catches and swallows an exception returns its fallback value instead.
* Redis network failures are modelled by fault flags in `RedisEnv`: a set
  flag means the underlying client call raises.
* Numeric values (`float` confidences) are modelled as rationals.
* `json.dumps` is modelled on the response dict it is applied to: JSON
  native scalars encode, while `datetime` objects and opaque (numpy)
  prediction objects raise `TypeError`.  The store keeps structured
  values, so the deserialize direction (never exercised by `/predict`,
  whose writes all raise) is the identity.
-/

namespace MicroML

/-! ## Cache Store state (the key/value data held by Redis)

The store is an association list from keys to values.  TTLs are accepted
by the write operation (as in `RedisService.set(key, value, expire)`) but
no expiry ever elapses inside a modelled call sequence: the claims below
only quantify over windows without TTL expiry. -/

/-- The key/value data of the Cache Store. -/
def Store (V : Type) : Type := List (String × V)

/-- Lookup of a key in the store. -/
def storeGet {V : Type} : Store V → String → Option V
  | [], _ => none
  | (k', v) :: rest, k => if k' = k then some v else storeGet rest k

/-- Overwrite-or-insert of a key in the store. -/
def storeSet {V : Type} : Store V → String → V → Store V
  | [], k, v => [(k, v)]
  | (k', v') :: rest, k, v =>
      if k' = k then (k, v) :: rest else (k', v') :: storeSet rest k v

/-- Add `n` to a counter, treating an absent key as 0 (Redis `INCRBY`). -/
def storeIncr : Store Int → String → Int → Store Int
  | [], k, n => [(k, n)]
  | (k', v) :: rest, k, n =>
      if k' = k then (k', v + n) :: rest else (k', v) :: storeIncr rest k n

/-- Read a counter, treating an absent key as 0. -/
def getCount (c : Store Int) (k : String) : Int :=
  (storeGet c k).getD 0

/-! ## RedisService (app/services/redis_service.py)

`RedisEnv` records which underlying Redis client calls raise during the
modelled window. -/

/-- Fault model for the underlying Redis client calls. -/
structure RedisEnv where
  getFails : Bool
  setFails : Bool
  incrFails : Bool

/-- `RedisService.get`: on any exception from the client it logs and
returns `None`; otherwise it returns the stored value (deserialization is
modelled as the identity). -/
def redisGet {V : Type} (env : RedisEnv) (s : Store V) (k : String) : Option V :=
  if env.getFails then none else storeGet s k

/-- `RedisService.set`: inside its `try` it first serializes the value
(`json.dumps` for dicts — which raises `TypeError` when some member is
not JSON-encodable, before any client call), then issues the client set;
any exception is logged and RE-RAISED (`raise` in the `except` block).
The caller supplies the serializer for the value type; the store keeps
the structured value (the deserialize direction is the identity).  The
`expire` argument is recorded in the signature but no expiry elapses
inside a modelled sequence. -/
def redisSet {V : Type} (env : RedisEnv) (serialize : V → Except String String)
    (s : Store V) (k : String) (v : V) (_expire : Option Nat) :
    Except String (Store V) :=
  match serialize v with
  | Except.error e => Except.error e
  | Except.ok _ =>
      if env.setFails then Except.error "redis set failed" else Except.ok (storeSet s k v)

/-- `RedisService.increment`: on an exception it logs and RE-RAISES;
otherwise it increments by `amount` and returns the new store. -/
def redisIncrement (env : RedisEnv) (c : Store Int) (k : String) (amount : Int) :
    Except String (Store Int) :=
  if env.incrFails then Except.error "redis incr failed" else Except.ok (storeIncr c k amount)

/-- `RedisService.track_api_usage(endpoint, user_id)`: increments the
global per-endpoint counter, the user counter when `user_id` is truthy
(`if user_id:` — `None` and `""` are falsy), and the daily counter; the
whole body is wrapped in `try/except` that logs and swallows, so a raise
from an increment aborts the remaining increments but returns normally. -/
def track_api_usage (env : RedisEnv) (c : Store Int) (endpoint : String)
    (user_id : Option String) (today : String) : Store Int :=
  match redisIncrement env c ("api_usage:" ++ endpoint) 1 with
  | Except.error _ => c
  | Except.ok c1 =>
    match
      (match user_id with
       | some u =>
           if u ≠ "" then redisIncrement env c1 ("user_usage:" ++ u ++ ":" ++ endpoint) 1
           else Except.ok c1
       | none => Except.ok c1) with
    | Except.error _ => c1
    | Except.ok c2 =>
      match redisIncrement env c2 ("daily_usage:" ++ today ++ ":" ++ endpoint) 1 with
      | Except.error _ => c2
      | Except.ok c3 => c3

/-- The user-counter step of `track_api_usage` in isolation: increments
`user_usage:{user_id}:{endpoint}` exactly when `user_id` is truthy. -/
def userBump (c : Store Int) (user_id : Option String) (endpoint : String) : Store Int :=
  match user_id with
  | some u => if u ≠ "" then storeIncr c ("user_usage:" ++ u ++ ":" ++ endpoint) 1 else c
  | none => c

/-- `track_api_usage` called `n` times in sequence with the same
arguments. -/
def trackN (env : RedisEnv) (endpoint : String) (user_id : Option String)
    (today : String) : Nat → Store Int → Store Int
  | 0, c => c
  | n + 1, c => trackN env endpoint user_id today n (track_api_usage env c endpoint user_id today)

/-! ## MLService (app/services/ml_service.py) -/

/-- The dict `MLService.predict` returns on success:
`{"prediction": ..., "confidence": ..., "model_version": "1.0.0",
"features_used": len(features)}`.  The prediction value itself (a numpy
scalar, a dict, or a string, depending on the model) is opaque, of type
`P`. -/
structure MLResult (P : Type) where
  prediction : P
  confidence : ℚ
  model_version : String
  features_used : Nat

/-- State of `MLService`: which model names are loaded, the loaded flag,
and the inference step.  `infer` yields the prediction value and the
confidence, or the message of the exception the numpy/sklearn inference
raises (e.g. the shape `ValueError` a RandomForest trained on 10 features
raises for a feature vector of another length); the numeric behaviour
itself is outside the embedding, the possibility of failure is not. -/
structure MLEnv (P : Type) where
  models : List String
  models_loaded : Bool
  infer : String → List ℚ → Except String (P × ℚ)

/-- `MLService.predict`: raises `ValueError("Models not loaded")` when the
loaded flag is unset, raises `ValueError(f"Model {model_name} not found")`
for an unknown model, and otherwise runs the inference inside a `try`
whose `except` logs and RE-RAISES, so an inference exception propagates;
on success it returns the result dict with `model_version` fixed at
`1.0.0` and `features_used = len(features)`. -/
def mlPredict {P : Type} (m : MLEnv P) (model_name : String) (features : List ℚ) :
    Except String (MLResult P) :=
  if !m.models_loaded then Except.error "Models not loaded"
  else if ¬ model_name ∈ m.models then
    Except.error ("Model " ++ model_name ++ " not found")
  else
    match m.infer model_name features with
    | Except.error e => Except.error e
    | Except.ok (p, conf) => Except.ok ⟨p, conf, "1.0.0", features.length⟩

/-- `MLService.analyze_sentiment` result (`emotions` keeps the four fixed
keys of the source). -/
structure SentimentResult where
  sentiment : String
  confidence : ℚ
  emotions : List (String × ℚ)

/-- The fixed positive keyword list of `analyze_sentiment`. -/
def positive_words : List String :=
  ["good", "great", "excellent", "amazing", "wonderful", "fantastic"]

/-- The fixed negative keyword list of `analyze_sentiment`. -/
def negative_words : List String :=
  ["bad", "terrible", "awful", "horrible", "disappointing"]

/-- `leadsList a b` holds when `a` is an initial segment of `b`. -/
def leadsList : List Char → List Char → Bool
  | [], _ => true
  | _ :: _, [] => false
  | a :: as, b :: bs => a == b && leadsList as bs

/-- Contiguous-substring test on character lists (Python's `in` on `str`). -/
def hasSub (needle : List Char) : List Char → Bool
  | [] => leadsList needle []
  | c :: t => leadsList needle (c :: t) || hasSub needle t

/-- Python's `word in text_lower` membership test for strings. -/
def strContains (hay needle : String) : Bool :=
  hasSub needle.data hay.data

/-- ASCII lowering of a string (`str.lower()` on the texts in scope). -/
def toLowerStr (s : String) : String :=
  String.mk (s.data.map Char.toLower)

/-- `sum(1 for word in words if word in text_lower)`: the number of
keywords of `words` occurring in `textLower`. -/
def countHits (words : List String) (textLower : String) : Nat :=
  (words.filter (fun w => strContains textLower w)).length

/-- `MLService.analyze_sentiment(text, language)` (the `language` argument
is accepted and unused, as in the source). -/
def analyze_sentiment (text : String) (_language : String) : SentimentResult :=
  let text_lower := toLowerStr text
  let positive_count := countHits positive_words text_lower
  let negative_count := countHits negative_words text_lower
  let sentiment : String :=
    if positive_count > negative_count then "positive"
    else if negative_count > positive_count then "negative"
    else "neutral"
  let confidence : ℚ :=
    if positive_count > negative_count then
      min (9/10) (6/10 + (positive_count : ℚ) * (1/10))
    else if negative_count > positive_count then
      min (9/10) (6/10 + (negative_count : ℚ) * (1/10))
    else 7/10
  { sentiment := sentiment
    confidence := confidence
    emotions :=
      [("joy", if sentiment = "positive" then 8/10 else 2/10),
       ("sadness", if sentiment = "negative" then 8/10 else 2/10),
       ("anger", 1/10),
       ("fear", 1/10)] }

/-! ## The /predict handler (app/api/prediction.py) -/

/-- `PredictionRequest`: the parsed request body.  Features arrive as
parsed numbers (pydantic's `List[float]`), so surface numeric formatting
is already gone; `context` is an opaque parsed JSON object. -/
structure PredictionRequest (C : Type) where
  model_name : String
  features : List ℚ
  user_id : Option String
  context : Option C

/-- Outcome of a handler: a 200 payload or an `HTTPException`. -/
inductive HResult (V : Type) where
  | ok (v : V)
  | httpError (status : Nat) (detail : String)
deriving DecidableEq

/-- Status of a handler outcome (`none` for a 200 payload). -/
def resultStatus {V : Type} : HResult V → Option Nat
  | HResult.ok _ => none
  | HResult.httpError s _ => some s

/-- Detail string of a handler outcome (`none` for a 200 payload). -/
def resultDetail {V : Type} : HResult V → Option String
  | HResult.ok _ => none
  | HResult.httpError _ d => some d

/-- The handler's cache key
`f"prediction:{request.model_name}:{hash(str(request.features))}"`.
`pyHash` is the process's string hash and `featStr` the `str()` rendering
of the parsed feature list; both are fixed functions of the running
process, passed as parameters. -/
def cacheKey {C : Type} (pyHash : String → Int) (featStr : List ℚ → String)
    (req : PredictionRequest C) : String :=
  "prediction:" ++ req.model_name ++ ":" ++ toString (pyHash (featStr req.features))

/-- The `PredictionResponse` pydantic model: `prediction`, `confidence`,
`model_version`, `processing_time_ms`, and `timestamp`, which defaults to
`datetime.now()` and is therefore always a `datetime` object in
`response.dict()`. -/
structure PredictionResponse (P : Type) where
  prediction : P
  confidence : ℚ
  model_version : String
  processing_time_ms : ℚ
  timestamp : Nat

/-- A value occurring in a Python dict handed to `json.dumps`: JSON
native scalars, a `datetime` object, or an opaque object (such as the
numpy scalar a sklearn model predicts), whose encodability the embedding
takes as a parameter. -/
inductive PyScalar (P : Type) where
  | num (q : ℚ)
  | str (s : String)
  | datetime (t : Nat)
  | raw (p : P)

/-- The `TypeError` message `json.dumps` raises for one dict value, or
`none` when the value encodes: numbers and strings encode, `datetime`
objects never do, opaque prediction objects according to `rawMsg`. -/
def encodeErr {P : Type} (rawMsg : P → Option String) : PyScalar P → Option String
  | PyScalar.num _ => none
  | PyScalar.str _ => none
  | PyScalar.datetime _ => some "Object of type datetime is not JSON serializable"
  | PyScalar.raw p => rawMsg p

/-- `response.dict()`: the insertion-ordered dict of the response model's
fields; the `timestamp` entry always holds a `datetime` object. -/
def responseDict {P : Type} (r : PredictionResponse P) : List (String × PyScalar P) :=
  [("prediction", PyScalar.raw r.prediction),
   ("confidence", PyScalar.num r.confidence),
   ("model_version", PyScalar.str r.model_version),
   ("processing_time_ms", PyScalar.num r.processing_time_ms),
   ("timestamp", PyScalar.datetime r.timestamp)]

/-- `json.dumps` on a dict: raises the `TypeError` of the first value
that does not encode, otherwise returns the serialized text (whose
characters the embedding does not inspect). -/
def dumps {P : Type} (rawMsg : P → Option String) (d : List (String × PyScalar P)) :
    Except String String :=
  match d.findSome? (fun kv => encodeErr rawMsg kv.2) with
  | some e => Except.error e
  | none => Except.ok "serialized"

/-- The response the handler builds from the `MLService.predict` result,
the measured processing time, and the current time. -/
def mkResponse {P : Type} (r : MLResult P) (pt : ℚ) (now : Nat) :
    PredictionResponse P :=
  ⟨r.prediction, r.confidence, r.model_version, pt, now⟩

/-- Result of one `/predict` call: the HTTP outcome, the Cache Store
afterwards, and how many times the computation provider ran. -/
structure PredictOutcome (V : Type) where
  result : HResult V
  store : Store V
  computeCalls : Nat

/-- The body of the `/predict` handler's `try` block: build the cache
key, `redis_service.get` (a truthy cached dict is returned as-is; the
cached response dicts are never falsy), on miss `ml_service.predict`,
build the response, then `redis_service.set(key, response.dict(),
expire=300)` — whose serializer is `json.dumps` on the response dict —
and return the response.  Yields the response and updated store, or the
message of whichever exception was raised, plus how often
`ml_service.predict` ran.  `now`/`pt` are the ambient wall clock and
measured processing time. -/
def predictTry {P C : Type} (env : RedisEnv) (m : MLEnv P) (rawMsg : P → Option String)
    (pyHash : String → Int) (featStr : List ℚ → String) (now : Nat) (pt : ℚ)
    (store : Store (PredictionResponse P)) (req : PredictionRequest C) :
    Except String (PredictionResponse P × Store (PredictionResponse P)) × Nat :=
  let key := cacheKey pyHash featStr req
  match redisGet env store key with
  | some v => (Except.ok (v, store), 0)
  | none =>
    match mlPredict m req.model_name req.features with
    | Except.error e => (Except.error e, 1)
    | Except.ok r =>
      let response := mkResponse r pt now
      match redisSet env (fun resp => dumps rawMsg (responseDict resp))
          store key response (some 300) with
      | Except.error e => (Except.error e, 1)
      | Except.ok store2 => (Except.ok (response, store2), 1)

/-- The `/predict` handler: the `try` body above, wrapped in the `except
Exception` clause that maps any raise to
`HTTPException(500, f"Prediction failed: {str(e)}")`. -/
def predict {P C : Type} (env : RedisEnv) (m : MLEnv P) (rawMsg : P → Option String)
    (pyHash : String → Int) (featStr : List ℚ → String) (now : Nat) (pt : ℚ)
    (store : Store (PredictionResponse P)) (req : PredictionRequest C) :
    PredictOutcome (PredictionResponse P) :=
  match predictTry env m rawMsg pyHash featStr now pt store req with
  | (Except.ok (v, store2), n) => ⟨HResult.ok v, store2, n⟩
  | (Except.error e, n) => ⟨HResult.httpError 500 ("Prediction failed: " ++ e), store, n⟩

/-- Full service state visible to a request: the prediction cache and the
usage counters kept by `RedisService`. -/
structure ServiceState (V : Type) where
  cache : Store V
  counters : Store Int

/-- The `/predict` handler acting on the full service state.  The handler
body contains no call to `track_api_usage` (or any other counter write),
so the counters component is untouched. -/
def predictFull {P C : Type} (env : RedisEnv) (m : MLEnv P) (rawMsg : P → Option String)
    (pyHash : String → Int) (featStr : List ℚ → String) (now : Nat) (pt : ℚ)
    (st : ServiceState (PredictionResponse P)) (req : PredictionRequest C) :
    HResult (PredictionResponse P) × ServiceState (PredictionResponse P) × Nat :=
  let o := predict env m rawMsg pyHash featStr now pt st.cache req
  (o.result, ⟨o.store, st.counters⟩, o.computeCalls)

/-! ## Concrete instances used by witnesses and counterexamples -/

/-- All Redis client calls succeed. -/
def envOk : RedisEnv := ⟨false, false, false⟩

/-- The Redis client's `set` call raises; everything else succeeds. -/
def envSetFail : RedisEnv := ⟨false, true, false⟩

/-- The Redis client's `get` call raises; everything else succeeds. -/
def envGetFail : RedisEnv := ⟨true, false, false⟩

/-- Concrete inference mirroring the source's shapes: the classification
forest is trained on 10 features and the regression forest on 5
(`ml_service.py:207,216`), so other lengths raise sklearn shape errors;
the custom models never raise.  Prediction values are opaque stubs. -/
def inferC : String → List ℚ → Except String (Nat × ℚ)
  | "classification", fs =>
      if fs.length = 10 then Except.ok (1, 85/100)
      else Except.error ("X has " ++ toString fs.length
        ++ " features, but RandomForestClassifier is expecting 10 features as input.")
  | "regression", fs =>
      if fs.length = 5 then Except.ok (0, 85/100)
      else Except.error ("X has " ++ toString fs.length
        ++ " features, but RandomForestRegressor is expecting 5 features as input.")
  | _, _ => Except.ok (3, 9/10)

/-- The `MLService` state after `load_models()`: the four stub models are
present and inference follows `inferC`. -/
def mlOk : MLEnv Nat :=
  ⟨["recommendation", "sentiment", "classification", "regression"], true, inferC⟩

/-- Serializability of the opaque prediction stubs: sklearn predictions
are numpy scalars, which `json.dumps` rejects. -/
def rawMsgC : Nat → Option String :=
  fun _ => some "Object of type int64 is not JSON serializable"

/-- A concrete stand-in for the process's string-hash function. -/
def hashC : String → Int := fun s => Int.ofNat s.length

/-- A concrete stand-in for the `str()` rendering of a parsed feature list. -/
def featStrC : List ℚ → String := fun l => toString (l.map (fun q => q.num))

/-- A concrete wall-clock timestamp (`datetime.now()`). -/
def nowC : Nat := 1760227200

/-- A concrete measured processing time in milliseconds. -/
def ptC : ℚ := 5

/-- A concrete well-formed `/predict` request whose computation succeeds:
the classification model with a 10-element feature vector. -/
def reqC : PredictionRequest Unit :=
  ⟨"classification", [1, 2, 3, 4, 5, 6, 7, 8, 9, 10], some "u1", none⟩

/-- A `/predict` request naming a model that does not exist. -/
def reqNoModel : PredictionRequest Unit := ⟨"nosuch", [1], none, none⟩

/-- A request with the same model and features as `reqC` but a different
user and context. -/
def reqC2 : PredictionRequest Unit :=
  ⟨"classification", [1, 2, 3, 4, 5, 6, 7, 8, 9, 10], none, some ()⟩

/-- The response `reqC` computes, cached nowhere in the source (its dict
cannot be serialized) but usable as a pre-existing cache entry. -/
def respC : PredictionResponse Nat := ⟨1, 85/100, "1.0.0", ptC, nowC⟩

/-! ## Helper lemmas -/

lemma storeGet_storeSet_self {V : Type} (s : Store V) (k : String) (v : V) :
    storeGet (storeSet s k v) k = some v := by
  induction s with
  | nil => simp [storeSet, storeGet]
  | cons hd tl ih =>
    obtain ⟨k', v'⟩ := hd
    by_cases hk : k' = k
    · simp [storeSet, hk, storeGet]
    · simp [storeSet, hk, storeGet, ih]

lemma getCount_storeIncr_self (c : Store Int) (k : String) (n : Int) :
    getCount (storeIncr c k n) k = getCount c k + n := by
  induction c with
  | nil => simp [storeIncr, getCount, storeGet]
  | cons hd tl ih =>
    obtain ⟨k', v⟩ := hd
    by_cases hk : k' = k
    · simp [storeIncr, hk, getCount, storeGet]
    · simp [storeIncr, hk, getCount, storeGet] at ih ⊢
      exact ih

lemma getCount_storeIncr_ne (c : Store Int) (k q : String) (n : Int) (h : q ≠ k) :
    getCount (storeIncr c k n) q = getCount c q := by
  have hkq : k ≠ q := fun h₂ => h h₂.symm
  induction c with
  | nil => simp [storeIncr, getCount, storeGet, hkq]
  | cons hd tl ih =>
    obtain ⟨k', v⟩ := hd
    by_cases hk : k' = k
    · subst hk
      simp [storeIncr, getCount, storeGet, hkq]
    · simp only [storeIncr, if_neg hk]
      by_cases hq : k' = q
      · simp [getCount, storeGet, hq]
      · simp [getCount, storeGet, hq] at ih ⊢
        exact ih

lemma ne_of_head (s t : String) (a b : Char) (ha : s.data.head? = some a)
    (hb : t.data.head? = some b) (hab : a ≠ b) : s ≠ t := by
  intro h
  rw [h, hb] at ha
  exact hab (Option.some.inj ha).symm

lemma head_api (e : String) : ("api_usage:" ++ e).data.head? = some 'a' := by
  rw [String.data_append]; rfl

lemma head_user (u e : String) :
    ("user_usage:" ++ u ++ ":" ++ e).data.head? = some 'u' := by
  rw [String.data_append, String.data_append, String.data_append]; rfl

lemma head_daily (t e : String) :
    ("daily_usage:" ++ t ++ ":" ++ e).data.head? = some 'd' := by
  rw [String.data_append, String.data_append, String.data_append]; rfl

lemma api_ne_user (e u e₂ : String) :
    ("api_usage:" ++ e) ≠ ("user_usage:" ++ u ++ ":" ++ e₂) :=
  ne_of_head _ _ 'a' 'u' (head_api e) (head_user u e₂) (by decide)

lemma api_ne_daily (e t e₂ : String) :
    ("api_usage:" ++ e) ≠ ("daily_usage:" ++ t ++ ":" ++ e₂) :=
  ne_of_head _ _ 'a' 'd' (head_api e) (head_daily t e₂) (by decide)

lemma user_ne_daily (u e t e₂ : String) :
    ("user_usage:" ++ u ++ ":" ++ e) ≠ ("daily_usage:" ++ t ++ ":" ++ e₂) :=
  ne_of_head _ _ 'u' 'd' (head_user u e) (head_daily t e₂) (by decide)

lemma track_api_usage_ok (env : RedisEnv) (h : env.incrFails = false) (c : Store Int)
    (e : String) (uid : Option String) (t : String) :
    track_api_usage env c e uid t =
      storeIncr (userBump (storeIncr c ("api_usage:" ++ e) 1) uid e)
        ("daily_usage:" ++ t ++ ":" ++ e) 1 := by
  cases uid with
  | none => simp [track_api_usage, redisIncrement, h, userBump]
  | some u =>
    by_cases hu : u = ""
    · simp [track_api_usage, redisIncrement, h, userBump, hu]
    · simp [track_api_usage, redisIncrement, h, userBump, hu]

lemma track_getCount_api (env : RedisEnv) (h : env.incrFails = false) (c : Store Int)
    (e : String) (uid : Option String) (t : String) :
    getCount (track_api_usage env c e uid t) ("api_usage:" ++ e)
      = getCount c ("api_usage:" ++ e) + 1 := by
  rw [track_api_usage_ok env h c e uid t,
    getCount_storeIncr_ne _ _ _ _ (api_ne_daily e t e)]
  cases uid with
  | none => simp [userBump, getCount_storeIncr_self]
  | some u =>
    by_cases hu : u = ""
    · simp [userBump, hu, getCount_storeIncr_self]
    · simp only [userBump, if_pos (by simpa using hu)]
      rw [getCount_storeIncr_ne _ _ _ _ (api_ne_user e u e), getCount_storeIncr_self]

lemma track_getCount_user_some (env : RedisEnv) (h : env.incrFails = false) (c : Store Int)
    (e : String) (u : String) (hu : u ≠ "") (t : String) :
    getCount (track_api_usage env c e (some u) t) ("user_usage:" ++ u ++ ":" ++ e)
      = getCount c ("user_usage:" ++ u ++ ":" ++ e) + 1 := by
  rw [track_api_usage_ok env h c e (some u) t,
    getCount_storeIncr_ne _ _ _ _ (user_ne_daily u e t e)]
  simp only [userBump, if_pos (by simpa using hu)]
  rw [getCount_storeIncr_self,
    getCount_storeIncr_ne _ _ _ _ (Ne.symm (api_ne_user e u e))]

lemma track_getCount_user_skip (env : RedisEnv) (h : env.incrFails = false) (c : Store Int)
    (e : String) (uid : Option String) (huid : uid = none ∨ uid = some "") (t : String)
    (u₂ e₂ : String) :
    getCount (track_api_usage env c e uid t) ("user_usage:" ++ u₂ ++ ":" ++ e₂)
      = getCount c ("user_usage:" ++ u₂ ++ ":" ++ e₂) := by
  rw [track_api_usage_ok env h c e uid t,
    getCount_storeIncr_ne _ _ _ _ (user_ne_daily u₂ e₂ t e)]
  have hb : userBump (storeIncr c ("api_usage:" ++ e) 1) uid e
      = storeIncr c ("api_usage:" ++ e) 1 := by
    rcases huid with h₁ | h₁ <;> simp [userBump, h₁]
  rw [hb, getCount_storeIncr_ne _ _ _ _ (Ne.symm (api_ne_user e u₂ e₂))]

lemma leadsList_refl (l : List Char) : leadsList l l = true := by
  induction l with
  | nil => rfl
  | cons a t ih => simp [leadsList, ih]

lemma hasSub_self (l : List Char) : hasSub l l = true := by
  cases l with
  | nil => rfl
  | cons c t => simp [hasSub, leadsList, leadsList_refl]

lemma hasSub_append_left (h l : List Char) : hasSub l (h ++ l) = true := by
  induction h with
  | nil => simpa using hasSub_self l
  | cons a t ih => simp [hasSub, ih]

lemma strContains_append (x e : String) : strContains (x ++ e) e = true := by
  unfold strContains
  rw [String.data_append]
  exact hasSub_append_left x.data e.data

lemma dumps_responseDict {P : Type} (rawMsg : P → Option String)
    (r : PredictionResponse P) :
    dumps rawMsg (responseDict r)
      = Except.error ((rawMsg r.prediction).getD
          "Object of type datetime is not JSON serializable") := by
  cases h : rawMsg r.prediction <;>
    simp [dumps, responseDict, encodeErr, List.findSome?, h]

lemma predict_of_try_error {P C : Type} (env : RedisEnv) (m : MLEnv P)
    (rawMsg : P → Option String) (pyHash : String → Int) (featStr : List ℚ → String)
    (now : Nat) (pt : ℚ) (s : Store (PredictionResponse P)) (req : PredictionRequest C)
    (e : String)
    (hfail : (predictTry env m rawMsg pyHash featStr now pt s req).1 = Except.error e) :
    (predict env m rawMsg pyHash featStr now pt s req).result
      = HResult.httpError 500 ("Prediction failed: " ++ e)
    ∧ (predict env m rawMsg pyHash featStr now pt s req).store = s := by
  unfold predict
  rcases hp : predictTry env m rawMsg pyHash featStr now pt s req with ⟨res, n⟩
  rw [hp] at hfail
  simp at hfail
  subst hfail
  exact ⟨rfl, rfl⟩

/-! ## Claims -/

/-- C1, counterexample: at a request whose computation succeeds in the
source (the classification model with a 10-feature vector), the cache
write raises even with a healthy Redis client (`json.dumps` rejects the
response dict), and the handler returns `HTTPException(500, ...)` rather
than the freshly computed response — refuting the claim that a failed
cache write never turns a successful computation into an error response. -/
theorem c1_counterexample :
    mlPredict mlOk reqC.model_name reqC.features
      = Except.ok ⟨1, 85/100, "1.0.0", 10⟩
    ∧ (predict envOk mlOk rawMsgC hashC featStrC nowC ptC
        ([] : Store (PredictionResponse Nat)) reqC).result
      = HResult.httpError 500
          "Prediction failed: Object of type int64 is not JSON serializable"
    ∧ (predict envOk mlOk rawMsgC hashC featStrC nowC ptC
        ([] : Store (PredictionResponse Nat)) reqC).result
      ≠ HResult.ok (mkResponse ⟨1, 85/100, "1.0.0", 10⟩ ptC nowC) := by
  refine ⟨rfl, rfl, ?_⟩
  intro hcontra
  rw [show (predict envOk mlOk rawMsgC hashC featStrC nowC ptC
      ([] : Store (PredictionResponse Nat)) reqC).result
      = HResult.httpError 500
          "Prediction failed: Object of type int64 is not JSON serializable"
    from rfl] at hcontra
  exact HResult.noConfusion hcontra

/-- C1, amended: if the cache write performed after a successful
computation fails — and in `/predict` it always does: `json.dumps` raises
on the response dict (`datetime` timestamp, numpy prediction) before the
client call, and a client-level failure is likewise re-raised — the
handler returns a 500 error response instead of the computed prediction,
leaving the Cache Store unchanged. -/
theorem c1_amended {P C : Type} (env : RedisEnv) (m : MLEnv P)
    (rawMsg : P → Option String) (pyHash : String → Int) (featStr : List ℚ → String)
    (now : Nat) (pt : ℚ) (s : Store (PredictionResponse P)) (req : PredictionRequest C)
    (r : MLResult P)
    (hmiss : redisGet env s (cacheKey pyHash featStr req) = none)
    (hcomp : mlPredict m req.model_name req.features = Except.ok r) :
    resultStatus (predict env m rawMsg pyHash featStr now pt s req).result = some 500
    ∧ (predict env m rawMsg pyHash featStr now pt s req).store = s := by
  have htry : (predictTry env m rawMsg pyHash featStr now pt s req).1
      = Except.error ((rawMsg r.prediction).getD
          "Object of type datetime is not JSON serializable") := by
    simp [predictTry, hmiss, hcomp, redisSet, dumps_responseDict, mkResponse]
  obtain ⟨h₁, h₂⟩ := predict_of_try_error env m rawMsg pyHash featStr now pt s req _ htry
  exact ⟨by rw [h₁]; rfl, h₂⟩

/-- Witness for `c1_amended` at `envOk`, `mlOk`, `reqC`: the computation
succeeds, the write raises, the caller sees a 500. -/
theorem c1_amended_witness :
    redisGet envOk ([] : Store (PredictionResponse Nat)) (cacheKey hashC featStrC reqC)
      = none
    ∧ mlPredict mlOk reqC.model_name reqC.features = Except.ok ⟨1, 85/100, "1.0.0", 10⟩
    ∧ (resultStatus (predict envOk mlOk rawMsgC hashC featStrC nowC ptC
          ([] : Store (PredictionResponse Nat)) reqC).result = some 500
        ∧ (predict envOk mlOk rawMsgC hashC featStrC nowC ptC
            ([] : Store (PredictionResponse Nat)) reqC).store = []) :=
  ⟨rfl, rfl,
    c1_amended envOk mlOk rawMsgC hashC featStrC nowC ptC [] reqC
      ⟨1, 85/100, "1.0.0", 10⟩ rfl rfl⟩

/-- C2: if the computation provider raises on a cache miss, the `/predict`
handler returns a failure (HTTP 500) to the caller, the Cache Store is
unchanged, and in particular it still holds no entry under the request's
fingerprint key. -/
theorem c2_failure_never_cached {P C : Type} (env : RedisEnv) (m : MLEnv P)
    (rawMsg : P → Option String) (pyHash : String → Int) (featStr : List ℚ → String)
    (now : Nat) (pt : ℚ) (s : Store (PredictionResponse P)) (req : PredictionRequest C)
    (e : String)
    (hmiss : storeGet s (cacheKey pyHash featStr req) = none)
    (hcomp : mlPredict m req.model_name req.features = Except.error e) :
    resultStatus (predict env m rawMsg pyHash featStr now pt s req).result = some 500
    ∧ (predict env m rawMsg pyHash featStr now pt s req).store = s
    ∧ storeGet (predict env m rawMsg pyHash featStr now pt s req).store
        (cacheKey pyHash featStr req) = none := by
  have hget : redisGet env s (cacheKey pyHash featStr req) = none := by
    cases hb : env.getFails <;> simp [redisGet, hb, hmiss]
  have htry : (predictTry env m rawMsg pyHash featStr now pt s req).1
      = Except.error e := by
    simp [predictTry, hget, hcomp]
  obtain ⟨h₁, h₂⟩ := predict_of_try_error env m rawMsg pyHash featStr now pt s req e htry
  exact ⟨by rw [h₁]; rfl, h₂, by rw [h₂]; exact hmiss⟩

/-- Witness for `c2_failure_never_cached` at `envOk`, `mlOk`, `reqNoModel`. -/
theorem c2_witness :
    storeGet ([] : Store (PredictionResponse Nat)) (cacheKey hashC featStrC reqNoModel)
      = none
    ∧ mlPredict mlOk reqNoModel.model_name reqNoModel.features
        = Except.error "Model nosuch not found"
    ∧ (resultStatus (predict envOk mlOk rawMsgC hashC featStrC nowC ptC
          ([] : Store (PredictionResponse Nat)) reqNoModel).result = some 500
        ∧ (predict envOk mlOk rawMsgC hashC featStrC nowC ptC
            ([] : Store (PredictionResponse Nat)) reqNoModel).store = []
        ∧ storeGet (predict envOk mlOk rawMsgC hashC featStrC nowC ptC
            ([] : Store (PredictionResponse Nat)) reqNoModel).store
            (cacheKey hashC featStrC reqNoModel) = none) :=
  ⟨rfl, rfl,
    c2_failure_never_cached envOk mlOk rawMsgC hashC featStrC nowC ptC [] reqNoModel
      "Model nosuch not found" rfl rfl⟩

/-- C3, code evaluated at the failing input: with the underlying Redis
get raising, `RedisService.get` returns `None` (even though the store
holds an entry under the fingerprint) and the flow degrades to a miss
invoking the computation — but the request still fails with 500, because
the subsequent cache write raises (`json.dumps` on the response dict)
before the client call, contradicting the claim's 'instead of the
request failing'. -/
theorem c3_read_failure_still_fails :
    redisGet envGetFail [(cacheKey hashC featStrC reqC, respC)]
        (cacheKey hashC featStrC reqC) = none
    ∧ (predict envGetFail mlOk rawMsgC hashC featStrC nowC ptC
        [(cacheKey hashC featStrC reqC, respC)] reqC).computeCalls = 1
    ∧ resultStatus (predict envGetFail mlOk rawMsgC hashC featStrC nowC ptC
        [(cacheKey hashC featStrC reqC, respC)] reqC).result = some 500 :=
  ⟨rfl, rfl, rfl⟩

/-- C4, code evaluated at the failing input: two sequential identical
`/predict` calls with a healthy Redis client both invoke the computation
(once each) and both return 500, the first call having cached nothing
because its write raised — no call is served from the cache, refuting
compute-once with a cache hit on the second call. -/
theorem c4_recompute_on_second_call :
    (predict envOk mlOk rawMsgC hashC featStrC nowC ptC
        ([] : Store (PredictionResponse Nat)) reqC).computeCalls = 1
    ∧ resultStatus (predict envOk mlOk rawMsgC hashC featStrC nowC ptC
        ([] : Store (PredictionResponse Nat)) reqC).result = some 500
    ∧ (predict envOk mlOk rawMsgC hashC featStrC nowC ptC
        ([] : Store (PredictionResponse Nat)) reqC).store = []
    ∧ (predict envOk mlOk rawMsgC hashC featStrC nowC ptC
        (predict envOk mlOk rawMsgC hashC featStrC nowC ptC
          ([] : Store (PredictionResponse Nat)) reqC).store reqC).computeCalls = 1
    ∧ resultStatus (predict envOk mlOk rawMsgC hashC featStrC nowC ptC
        (predict envOk mlOk rawMsgC hashC featStrC nowC ptC
          ([] : Store (PredictionResponse Nat)) reqC).store reqC).result = some 500 :=
  ⟨rfl, rfl, rfl, rfl, rfl⟩

/-- C5: with a working counter store, `track_api_usage` called `N` times
adds exactly `N` to the global `api_usage:{endpoint}` counter, exactly `N`
to `user_usage:{userId}:{endpoint}` when a non-empty `userId` is given,
and leaves every user-scoped counter unchanged when `userId` is absent
(or empty, which Python treats as falsy). -/
theorem c5_usage_counter_increments (env : RedisEnv) (h : env.incrFails = false)
    (N : Nat) (c : Store Int) (e : String) (uid : Option String) (t u : String) :
    (getCount (trackN env e uid t N c) ("api_usage:" ++ e)
        = getCount c ("api_usage:" ++ e) + N)
    ∧ (uid = some u → u ≠ "" →
        getCount (trackN env e uid t N c) ("user_usage:" ++ u ++ ":" ++ e)
          = getCount c ("user_usage:" ++ u ++ ":" ++ e) + N)
    ∧ ((uid = none ∨ uid = some "") →
        getCount (trackN env e uid t N c) ("user_usage:" ++ u ++ ":" ++ e)
          = getCount c ("user_usage:" ++ u ++ ":" ++ e)) := by
  induction N generalizing c with
  | zero => simp [trackN]
  | succ n ih =>
    obtain ⟨ih₁, ih₂, ih₃⟩ := ih (track_api_usage env c e uid t)
    refine ⟨?_, ?_, ?_⟩
    · show getCount (trackN env e uid t n (track_api_usage env c e uid t)) _ = _
      rw [ih₁, track_getCount_api env h]
      push_cast
      ring
    · intro h₁ h₂
      show getCount (trackN env e uid t n (track_api_usage env c e uid t)) _ = _
      rw [ih₂ h₁ h₂]
      subst h₁
      rw [track_getCount_user_some env h c e u h₂ t]
      push_cast
      ring
    · intro h₁
      show getCount (trackN env e uid t n (track_api_usage env c e uid t)) _ = _
      rw [ih₃ h₁, track_getCount_user_skip env h c e uid h₁ t u e]

/-- Witness for `c5_usage_counter_increments`: two tracked calls for
endpoint `/predict` by user `u1`. -/
theorem c5_witness :
    envOk.incrFails = false
    ∧ ((getCount (trackN envOk "/predict" (some "u1") "2026-10-12" 2 [])
          ("api_usage:" ++ "/predict")
          = getCount [] ("api_usage:" ++ "/predict") + 2)
       ∧ (some "u1" = some "u1" → "u1" ≠ "" →
          getCount (trackN envOk "/predict" (some "u1") "2026-10-12" 2 [])
            ("user_usage:" ++ "u1" ++ ":" ++ "/predict")
            = getCount [] ("user_usage:" ++ "u1" ++ ":" ++ "/predict") + 2)
       ∧ ((some "u1" = none ∨ some "u1" = some "") →
          getCount (trackN envOk "/predict" (some "u1") "2026-10-12" 2 [])
            ("user_usage:" ++ "u1" ++ ":" ++ "/predict")
            = getCount [] ("user_usage:" ++ "u1" ++ ":" ++ "/predict"))) :=
  ⟨rfl, c5_usage_counter_increments envOk rfl 2 [] "/predict" (some "u1") "2026-10-12" "u1"⟩

/-- C6, code evaluated at the failing input: handling a `/predict`
request leaves the usage counters untouched on every path — the computed
path (which here ends in the 500 of the failing cache write) and the
cache-hit path (which returns 200) alike — because the handler contains
no call to `track_api_usage`; `api_usage:/predict` stays at 0 instead of
being incremented. -/
theorem c6_no_usage_tracking :
    (predictFull envOk mlOk rawMsgC hashC featStrC nowC ptC
        (⟨[], []⟩ : ServiceState (PredictionResponse Nat)) reqC).2.1.counters = []
    ∧ getCount (predictFull envOk mlOk rawMsgC hashC featStrC nowC ptC
        (⟨[], []⟩ : ServiceState (PredictionResponse Nat)) reqC).2.1.counters
        ("api_usage:" ++ "/predict") = 0
    ∧ (predictFull envOk mlOk rawMsgC hashC featStrC nowC ptC
        (⟨[(cacheKey hashC featStrC reqC, respC)], []⟩
          : ServiceState (PredictionResponse Nat)) reqC).1 = HResult.ok respC
    ∧ (predictFull envOk mlOk rawMsgC hashC featStrC nowC ptC
        (⟨[(cacheKey hashC featStrC reqC, respC)], []⟩
          : ServiceState (PredictionResponse Nat)) reqC).2.1.counters = [] :=
  ⟨rfl, rfl, rfl, rfl⟩

/-- C7: the cache key of `/predict` is a function of the model name and
the parsed feature values alone — any two requests agreeing on those
(whatever their `user_id` and `context`, and with surface numeric
formatting already removed by request parsing) get the identical key
string, for the process's fixed hash and rendering functions. -/
theorem c7_fingerprint_deterministic {C : Type} (pyHash : String → Int)
    (featStr : List ℚ → String) (r₁ r₂ : PredictionRequest C)
    (hm : r₁.model_name = r₂.model_name) (hf : r₁.features = r₂.features) :
    cacheKey pyHash featStr r₁ = cacheKey pyHash featStr r₂ := by
  simp [cacheKey, hm, hf]

/-- Witness for `c7_fingerprint_deterministic`: `reqC` and `reqC2` differ
in `user_id` and `context` but share model and features. -/
theorem c7_witness :
    reqC.model_name = reqC2.model_name
    ∧ reqC.features = reqC2.features
    ∧ cacheKey hashC featStrC reqC = cacheKey hashC featStrC reqC2 :=
  ⟨rfl, rfl, c7_fingerprint_deterministic hashC featStrC reqC reqC2 rfl rfl⟩

/-- C8, counterexample: a request naming the unknown model `nosuch` is
answered with HTTP 500 (the `ValueError` from `MLService.predict` is
caught by the handler's catch-all), not a 4xx-equivalent status. -/
theorem c8_counterexample :
    (predict envOk mlOk rawMsgC hashC featStrC nowC ptC
        ([] : Store (PredictionResponse Nat)) reqNoModel).result
      = HResult.httpError 500 "Prediction failed: Model nosuch not found"
    ∧ resultStatus (predict envOk mlOk rawMsgC hashC featStrC nowC ptC
        ([] : Store (PredictionResponse Nat)) reqNoModel).result = some 500 :=
  ⟨rfl, rfl⟩

/-- C8, amended: a `/predict` request naming a model that does not exist
surfaces to the caller as HTTP 500 with the descriptive detail
`Prediction failed: Model {name} not found` — a 5xx, not a 4xx. -/
theorem c8_amended {P C : Type} (env : RedisEnv) (m : MLEnv P)
    (rawMsg : P → Option String) (pyHash : String → Int) (featStr : List ℚ → String)
    (now : Nat) (pt : ℚ) (s : Store (PredictionResponse P)) (req : PredictionRequest C)
    (hloaded : m.models_loaded = true) (hnm : req.model_name ∉ m.models)
    (hmiss : storeGet s (cacheKey pyHash featStr req) = none) :
    (predict env m rawMsg pyHash featStr now pt s req).result
      = HResult.httpError 500
          ("Prediction failed: " ++ ("Model " ++ req.model_name ++ " not found")) := by
  have hget : redisGet env s (cacheKey pyHash featStr req) = none := by
    cases hb : env.getFails <;> simp [redisGet, hb, hmiss]
  have hc : mlPredict m req.model_name req.features
      = Except.error ("Model " ++ req.model_name ++ " not found") := by
    simp [mlPredict, hloaded, hnm]
  have htry : (predictTry env m rawMsg pyHash featStr now pt s req).1
      = Except.error ("Model " ++ req.model_name ++ " not found") := by
    simp [predictTry, hget, hc]
  exact (predict_of_try_error env m rawMsg pyHash featStr now pt s req _ htry).1

/-- Witness for `c8_amended` at `mlOk` and the unknown model `nosuch`. -/
theorem c8_amended_witness :
    mlOk.models_loaded = true
    ∧ reqNoModel.model_name ∉ mlOk.models
    ∧ storeGet ([] : Store (PredictionResponse Nat)) (cacheKey hashC featStrC reqNoModel)
        = none
    ∧ (predict envOk mlOk rawMsgC hashC featStrC nowC ptC
        ([] : Store (PredictionResponse Nat)) reqNoModel).result
      = HResult.httpError 500
          ("Prediction failed: " ++ ("Model " ++ reqNoModel.model_name ++ " not found")) :=
  ⟨rfl, by decide, rfl,
    c8_amended envOk mlOk rawMsgC hashC featStrC nowC ptC [] reqNoModel
      rfl (by decide) rfl⟩

/-- C9, counterexample: the failing request for the unknown model `nosuch`
is answered with the body `Prediction failed: Model nosuch not found`,
which contains the raw message of the underlying `ValueError` — internal
exception details do reach the response body. -/
theorem c9_counterexample :
    resultDetail (predict envOk mlOk rawMsgC hashC featStrC nowC ptC
        ([] : Store (PredictionResponse Nat)) reqNoModel).result
      = some "Prediction failed: Model nosuch not found"
    ∧ strContains "Prediction failed: Model nosuch not found" "Model nosuch not found"
      = true :=
  ⟨rfl, rfl⟩

/-- C9, amended: whenever a `/predict` request fails — whatever was
raised inside the handler's `try` body (model lookup, inference,
serialization, or the Redis client) — the error body is exactly
`Prediction failed: ` followed by the exception's raw message, so the
body always contains that internal message (stack traces, however, are
not included). -/
theorem c9_amended {P C : Type} (env : RedisEnv) (m : MLEnv P)
    (rawMsg : P → Option String) (pyHash : String → Int) (featStr : List ℚ → String)
    (now : Nat) (pt : ℚ) (s : Store (PredictionResponse P)) (req : PredictionRequest C)
    (e : String)
    (hfail : (predictTry env m rawMsg pyHash featStr now pt s req).1 = Except.error e) :
    resultDetail (predict env m rawMsg pyHash featStr now pt s req).result
      = some ("Prediction failed: " ++ e)
    ∧ strContains ("Prediction failed: " ++ e) e = true := by
  obtain ⟨h₁, -⟩ := predict_of_try_error env m rawMsg pyHash featStr now pt s req e hfail
  exact ⟨by rw [h₁]; rfl, strContains_append _ e⟩

/-- Witness for `c9_amended` at the unknown-model failure of `reqNoModel`. -/
theorem c9_amended_witness :
    (predictTry envOk mlOk rawMsgC hashC featStrC nowC ptC
        ([] : Store (PredictionResponse Nat)) reqNoModel).1
      = Except.error "Model nosuch not found"
    ∧ (resultDetail (predict envOk mlOk rawMsgC hashC featStrC nowC ptC
          ([] : Store (PredictionResponse Nat)) reqNoModel).result
        = some ("Prediction failed: " ++ "Model nosuch not found")
        ∧ strContains ("Prediction failed: " ++ "Model nosuch not found")
            "Model nosuch not found" = true) :=
  ⟨rfl,
    c9_amended envOk mlOk rawMsgC hashC featStrC nowC ptC [] reqNoModel
      "Model nosuch not found" rfl⟩

/-- C10: `analyze_sentiment` always returns one of the sentiments
`positive`, `negative`, `neutral`, its confidence lies in `[0.6, 0.9]`,
and the result is `neutral` with confidence exactly `0.7` precisely when
the text contains equally many of the fixed positive and negative
keywords. -/
theorem c10_sentiment_classification (text language : String) :
    ((analyze_sentiment text language).sentiment = "positive"
      ∨ (analyze_sentiment text language).sentiment = "negative"
      ∨ (analyze_sentiment text language).sentiment = "neutral")
    ∧ (6/10 : ℚ) ≤ (analyze_sentiment text language).confidence
    ∧ (analyze_sentiment text language).confidence ≤ 9/10
    ∧ (((analyze_sentiment text language).sentiment = "neutral"
          ∧ (analyze_sentiment text language).confidence = 7/10)
        ↔ countHits positive_words (toLowerStr text)
            = countHits negative_words (toLowerStr text)) := by
  simp only [analyze_sentiment]
  generalize countHits positive_words (toLowerStr text) = p
  generalize countHits negative_words (toLowerStr text) = n
  by_cases h₁ : p > n
  · simp only [if_pos h₁]
    refine ⟨Or.inl trivial, ?_, min_le_left _ _, ?_⟩
    · refine le_min (by norm_num) ?_
      have hp0 : (0:ℚ) ≤ (p : ℚ) * (1/10) := by positivity
      linarith
    · constructor
      · rintro ⟨hs, -⟩
        exact absurd hs (by decide)
      · intro hpn
        exact absurd hpn (by omega)
  · by_cases h₂ : n > p
    · simp only [if_neg h₁, if_pos h₂]
      refine ⟨Or.inr (Or.inl trivial), ?_, min_le_left _ _, ?_⟩
      · refine le_min (by norm_num) ?_
        have hn0 : (0:ℚ) ≤ (n : ℚ) * (1/10) := by positivity
        linarith
      · constructor
        · rintro ⟨hs, -⟩
          exact absurd hs (by decide)
        · intro hpn
          exact absurd hpn (by omega)
    · have hpn : p = n := by omega
      simp only [if_neg h₁, if_neg h₂]
      exact ⟨Or.inr (Or.inr trivial), by norm_num, by norm_num, by simp [hpn]⟩

end MicroML
